import Mathlib

/-!
Shallow embedding of the Device-Type-Library-Import-Script repository
(netbox_module.py, netbox_rack.py, netbox_manufacturer.py,
module_type_tracker.py, device_type_tracker.py) and proofs about the
claims of its specification.

Modelling conventions:
* Python scalar values appearing in YAML payloads are modelled by `Val`
  (string, integer, boolean, or None).  Python dictionaries whose keys are
  strings are modelled by association lists `List (String × Val)`; the
  source code only ever builds dictionaries with unique keys.
* The remote NetBox instance is modelled by an explicit `Remote` state
  threaded through every operation.  The fields `creates` and `updates`
  count the remote create/update write calls issued, so that statements
  of the form "issues no update write" are expressible.  Remote lookups
  are modelled as returning the fields exactly as previously written;
  remote write failures (HTTP errors) are outside the model, matching the
  treatment by the specification of the transport as an external collaborator.
* Timestamps (datetime.now().isoformat()) are modelled as an abstract
  `Nat` passed in by the caller; the progress trackers additionally carry
  a `saves` counter counting calls of save_progress, so that "performs no
  persistence write" is expressible as state equality.
-/

set_option maxRecDepth 8000

/-- Val models a Python scalar value as found in the parsed YAML payloads:
a string, an integer, a boolean, or None. -/
inductive Val where
  | str : String → Val
  | int : Int → Val
  | bool : Bool → Val
  | none : Val
deriving DecidableEq, Repr

/-- Payload models a Python dict with string keys, as an association list. -/
abbrev Payload := List (String × Val)

/-- alookup is first-match association-list lookup, modelling Python dict
access (source dicts have unique keys). -/
def alookup {β : Type} (k : String) : List (String × β) → Option β
  | [] => Option.none
  | (k', v) :: rest => if k' = k then some v else alookup k rest

/-- lookupFieldD models Python getattr(obj, k, None) / dict.get(k): lookup
with default None. -/
def lookupFieldD (fs : Payload) (k : String) : Val :=
  (alookup k fs).getD Val.none

/-- setField models Python dict assignment d[k] = v: replace the value in
place if the key exists, otherwise append the new binding. -/
def setField (p : Payload) (k : String) (v : Val) : Payload :=
  if (alookup k p).isSome then
    p.map (fun kv => if kv.1 = k then (k, v) else kv)
  else p ++ [(k, v)]

/-- removeField models Python dict.pop(k, None). -/
def removeField (p : Payload) (k : String) : Payload :=
  p.filter (fun kv => decide (kv.1 ≠ k))

/-- updateFields models pynetbox Record.update(payload): every key of the
update payload is written onto the stored field map. -/
def updateFields (fs : Payload) (upd : Payload) : Payload :=
  upd.foldl (fun acc kv => setField acc kv.1 kv.2) fs

/-- truthy models Python truthiness of a scalar value. -/
def truthy : Val → Bool
  | Val.str s => decide (s ≠ "")
  | Val.int n => decide (n ≠ 0)
  | Val.bool b => b
  | Val.none => false

/-- pyStr models Python str() on a scalar value. -/
def pyStr : Val → String
  | Val.str s => s
  | Val.int n => toString n
  | Val.bool b => if b then "True" else "False"
  | Val.none => "None"

/-- pyLower models Python str.lower() (the inputs of interest are ASCII). -/
def pyLower (s : String) : String :=
  String.mk (s.data.map Char.toLower)

/-- isPySpace recognises the whitespace characters stripped by Python
str.strip(). -/
def isPySpace (c : Char) : Bool :=
  decide (c = ' ' ∨ c = '\t' ∨ c = '\n' ∨ c = '\r' ∨ c = '\x0b' ∨ c = '\x0c')

/-- stripChars models Python str.strip with an arbitrary character class:
drop matching characters from both ends. -/
def stripChars (p : Char → Bool) (l : List Char) : List Char :=
  ((l.dropWhile p).reverse.dropWhile p).reverse

/-- replaceAmp models str.replace of a single ampersand character by the
three characters of the word and. -/
def replaceAmp (l : List Char) : List Char :=
  l.foldr (fun c acc => if c = '&' then 'a' :: 'n' :: 'd' :: acc else c :: acc) []

/-- isSlugChar recognises the characters kept by the regex character class
of lowercase letters and digits used in slugify. -/
def isSlugChar (c : Char) : Bool :=
  decide (('a' ≤ c ∧ c ≤ 'z') ∨ ('0' ≤ c ∧ c ≤ '9'))

/-- squashDashes collapses every run of consecutive hyphens to a single
hyphen, modelling re.sub of one-or-more non-alphanumerics (after the
per-character replacement) and re.sub of two-or-more hyphens. -/
def squashDashes : List Char → List Char
  | [] => []
  | [c] => [c]
  | c :: d :: rest =>
    if c = '-' ∧ d = '-' then squashDashes (d :: rest)
    else c :: squashDashes (d :: rest)

/-- slugify embeds slugify of netbox_module.py: strip, lowercase, replace
ampersand by and, collapse runs of non-alphanumerics to a hyphen, strip
hyphens, collapse repeated hyphens. -/
def slugify (name : String) : String :=
  let s1 := (stripChars isPySpace name.data).map Char.toLower
  let s2 := replaceAmp s1
  let s3 := squashDashes (s2.map (fun c => if isSlugChar c then c else '-'))
  let s4 := stripChars (fun c => decide (c = '-')) s3
  String.mk (squashDashes s4)

/-- slugify_manufacturer embeds slugify of netbox_manufacturer.py (the same
sequence of steps, written in that file independently). -/
def slugify_manufacturer (name : String) : String :=
  let s1 := (stripChars isPySpace name.data).map Char.toLower
  let s2 := replaceAmp s1
  let s3 := squashDashes (s2.map (fun c => if isSlugChar c then c else '-'))
  let s4 := stripChars (fun c => decide (c = '-')) s3
  String.mk (squashDashes s4)

/-- slugify_rack embeds slugify of netbox_rack.py (again the same sequence
of steps). -/
def slugify_rack (name : String) : String :=
  let s1 := (stripChars isPySpace name.data).map Char.toLower
  let s2 := replaceAmp s1
  let s3 := squashDashes (s2.map (fun c => if isSlugChar c then c else '-'))
  let s4 := stripChars (fun c => decide (c = '-')) s3
  String.mk (squashDashes s4)

/-- ALLOWED_FIELDS embeds the module-type allow-list of netbox_module.py. -/
def ALLOWED_FIELDS : List String :=
  ["manufacturer", "model", "slug", "u_height", "part_number",
   "exclude_from_utilization", "is_full_depth", "subdevice_role", "airflow",
   "description", "weight", "weight_unit", "comments"]

/-- boolNormStr embeds the boolean normalisation of normalize_payload for
the two flag fields: a string maps to membership of its lowercase form in
the set of true words, any other value maps through Python bool(). -/
def boolNormStr : Val → Bool
  | Val.str s => decide (pyLower s ∈ ["true", "yes", "1"])
  | v => truthy v

/-- normalize_payload embeds normalize_payload of netbox_module.py: keep
only allow-listed keys; normalise the two flag fields to booleans; leave
every other kept value unchanged. -/
def normalize_payload : Payload → Payload
  | [] => []
  | (k, v) :: rest =>
    if k ∈ ALLOWED_FIELDS then
      (if k = "exclude_from_utilization" ∨ k = "is_full_depth" then
        (k, Val.bool (boolNormStr v))
      else (k, v)) :: normalize_payload rest
    else normalize_payload rest

/-- COMPONENT_MAP embeds COMPONENT_MAP of netbox_module.py: YAML section
key, NetBox resource attribute, allow-listed field names. -/
def COMPONENT_MAP : List (String × String × List String) :=
  [("console-ports", "console_port_templates", ["name", "label", "type", "_is_power_source"]),
   ("console-server-ports", "console_server_port_templates", ["name", "label", "type"]),
   ("power-ports", "power_port_templates", ["name", "label", "type", "maximum_draw", "allocated_draw", "_is_power_source"]),
   ("power-outlets", "power_outlet_templates", ["name", "label", "type", "power_port", "feed_leg"]),
   ("interfaces", "interface_templates", ["name", "label", "type", "mgmt_only", "poe_mode", "poe_type"]),
   ("rear-ports", "rear_port_templates", ["name", "label", "type", "positions", "_is_power_source"]),
   ("front-ports", "front_port_templates", ["name", "label", "type", "rear_port", "rear_port_position"]),
   ("module-bays", "module_bay_templates", ["name", "label", "position"]),
   ("device-bays", "device_bay_templates", ["name", "label", "position"]),
   ("inventory-items", "inventory_item_templates", ["name", "label", "manufacturer", "part_id"])]

/-- ordered_keys embeds the key reordering at the top of
process_components: the keys of COMPONENT_MAP with rear-ports removed and
reinserted at the front. -/
def ordered_keys : List String :=
  let ks := COMPONENT_MAP.map (fun e => e.1)
  if "rear-ports" ∈ ks then "rear-ports" :: ks.erase "rear-ports" else ks

/-- component_entry is the per-entry transformation of the
payload-building loop at the start of create_or_update_component: force
position to a string; normalise string booleans among true, false, yes,
no (explicitly excluding the strings 1 and 0); leave everything else
unchanged. -/
def component_entry (k : String) (v : Val) : String × Val :=
  if k = "position" ∧ v ≠ Val.none then (k, Val.str (pyStr v))
  else match v with
    | Val.str s =>
      if pyLower s ∈ ["true", "false", "yes", "no"] then
        (k, Val.bool (decide (pyLower s ∈ ["true", "yes", "1"])))
      else (k, Val.str s)
    | v' => (k, v')

/-- component_payload embeds the payload-building loop at the start of
create_or_update_component: keep allow-listed keys, each transformed by
component_entry. -/
def component_payload : Payload → List String → Payload
  | [], _ => []
  | (k, v) :: rest, allowed =>
    if k ∈ allowed then component_entry k v :: component_payload rest allowed
    else component_payload rest allowed

/-- Manufacturer models one remote manufacturer record. -/
structure Manufacturer where
  id : Nat
  name : String
  slug : String
deriving DecidableEq, Repr

/-- ModuleType models one remote module-type record: its id, its stored
fields, and its tag set (a list of tag ids). -/
structure ModuleType where
  id : Nat
  fields : Payload
  tags : List Nat
deriving DecidableEq, Repr

/-- Tmpl models one remote component-template record: the resource it
lives in, its id, its parent module-type id, and its stored fields. -/
structure Tmpl where
  resource : String
  id : Nat
  module_type : Nat
  fields : Payload
deriving DecidableEq, Repr

/-- Remote models the remote NetBox state.  nextId numbers newly created
records; creates and updates count the remote write calls issued. -/
structure Remote where
  manufacturers : List Manufacturer
  module_types : List ModuleType
  tmpls : List Tmpl
  nextId : Nat
  creates : Nat
  updates : Nat
deriving DecidableEq, Repr

/-- ensure_manufacturer embeds ensure_manufacturer of netbox_module.py
(identical in netbox_rack.py): lookup by exact name, then by derived slug;
never creates anything (it takes the state and returns only an id). -/
def ensure_manufacturer (r : Remote) (name : String) : Option Nat :=
  if name = "" then Option.none
  else
    match r.manufacturers.find? (fun m => decide (m.name = name)) with
    | some m => some m.id
    | Option.none =>
      match r.manufacturers.find? (fun m => decide (m.slug = slugify name)) with
      | some m => some m.id
      | Option.none => Option.none

/-- valInt models Python int() on the values compared in
find_existing_module_type (in the source these are always integer ids). -/
def valInt : Val → Int
  | Val.int n => n
  | Val.bool b => if b then 1 else 0
  | _ => 0

/-- find_existing_module_type embeds find_existing_module_type of
netbox_module.py: first by slug, then by model plus manufacturer id. -/
def find_existing_module_type (r : Remote) (p : Payload) : Option ModuleType :=
  let bySlug :=
    match alookup "slug" p with
    | some v =>
      if truthy v then
        r.module_types.find? (fun (mt : ModuleType) => decide (lookupFieldD mt.fields "slug" = v))
      else Option.none
    | Option.none => Option.none
  match bySlug with
  | some mt => some mt
  | Option.none =>
    match alookup "model" p, alookup "manufacturer" p with
    | some mv, some manv =>
      if truthy manv then
        (r.module_types.filter (fun (mt : ModuleType) => decide (lookupFieldD mt.fields "model" = mv))).find?
          (fun mt => truthy (lookupFieldD mt.fields "manufacturer") &&
                     decide (valInt (lookupFieldD mt.fields "manufacturer") = valInt manv))
      else Option.none
    | _, _ => Option.none


/-- CompResult models the four-way result of create_or_update_component. -/
inductive CompResult where
  | created : Nat → CompResult
  | updated : Nat → CompResult
  | skipped : Nat → CompResult
  | error : String → CompResult
deriving DecidableEq, Repr

/-- CMap models created_map of process_components, the intra-run cache
mapping (resource name, template name) to the id created or updated
earlier in the current document. -/
abbrev CMap := List (String × String × Nat)

/-- cmapLookup models the created_map lookup in create_or_update_component.
The Python code tries the raw key and then its str(); since the stored
keys are always str() images, this is a single lookup by the str() image
of the reference value. -/
def cmapLookup (m : CMap) (res nameStr : String) : Option Nat :=
  match m.find? (fun e => decide (e.1 = res ∧ e.2.1 = nameStr)) with
  | some e => some e.2.2
  | Option.none => Option.none

/-- cmapInsert models the created_map insertion in process_components:
write (overwriting any previous binding for the same resource and name). -/
def cmapInsert (m : CMap) (res nameStr : String) (tid : Nat) : CMap :=
  if (m.find? (fun e => decide (e.1 = res ∧ e.2.1 = nameStr))).isSome then
    m.map (fun e => if e.1 = res ∧ e.2.1 = nameStr then (res, nameStr, tid) else e)
  else m ++ [(res, nameStr, tid)]

/-- rear_candidates models the remote lookup of rear-port templates
filtered by parent module-type id and name, as issued by
create_or_update_component.  Name matching goes through the str() image
on both sides, modelling the HTTP query-parameter comparison. -/
def rear_candidates (r : Remote) (mtId : Nat) (nameStr : String) : List Tmpl :=
  r.tmpls.filter (fun t => decide
    (t.resource = "rear_port_templates" ∧ t.module_type = mtId ∧
     pyStr (lookupFieldD t.fields "name") = nameStr))

/-- power_port_candidates models the remote lookup of power-port templates
filtered by parent module-type id and name. -/
def power_port_candidates (r : Remote) (mtId : Nat) (nameStr : String) : List Tmpl :=
  r.tmpls.filter (fun t => decide
    (t.resource = "power_port_templates" ∧ t.module_type = mtId ∧
     pyStr (lookupFieldD t.fields "name") = nameStr))

/-- resolve_rear_port embeds the rear_port resolution block of
create_or_update_component: cache first, then the scoped remote lookup;
a miss is an error (the reference is required). -/
def resolve_rear_port (r : Remote) (mtId : Nat) (p : Payload) (cmap : CMap) :
    Except String Payload :=
  match alookup "rear_port" p with
  | Option.none => Except.ok p
  | some v =>
    if v = Val.none then Except.ok p
    else
      match cmapLookup cmap "rear_port_templates" (pyStr v) with
      | some tid => Except.ok (setField p "rear_port" (Val.int tid))
      | Option.none =>
        match rear_candidates r mtId (pyStr v) with
        | t :: _ => Except.ok (setField p "rear_port" (Val.int t.id))
        | [] => Except.error ("rear_port " ++ pyStr v ++ " not found")

/-- resolve_power_port embeds the power_port resolution block of
create_or_update_component: cache first, then the scoped remote lookup;
a miss drops the reference field from the payload (it is optional). -/
def resolve_power_port (r : Remote) (mtId : Nat) (p : Payload) (cmap : CMap) :
    Payload :=
  match alookup "power_port" p with
  | Option.none => p
  | some v =>
    if v = Val.none then p
    else
      match cmapLookup cmap "power_port_templates" (pyStr v) with
      | some tid => setField p "power_port" (Val.int tid)
      | Option.none =>
        match power_port_candidates r mtId (pyStr v) with
        | t :: _ => setField p "power_port" (Val.int t.id)
        | [] => removeField p "power_port"

/-- resolve_inv_manufacturer embeds the inventory-item manufacturer
conversion of create_or_update_component: convert the name to an id via
ensure_manufacturer, dropping the field when the lookup fails. -/
def resolve_inv_manufacturer (r : Remote) (p : Payload) : Payload :=
  match alookup "manufacturer" p with
  | Option.none => p
  | some v =>
    if truthy v then
      match ensure_manufacturer r (pyStr v) with
      | some mid => setField p "manufacturer" (Val.int mid)
      | Option.none => removeField p "manufacturer"
    else p

/-- componentRequestPayload is the payload after allow-list filtering plus
the forced module_type binding, before reference resolution. -/
def componentRequestPayload (mtId : Nat) (item : Payload) (allowed : List String) :
    Payload :=
  setField (component_payload item allowed) "module_type" (Val.int mtId)

/-- finalComponentPayload chains the three reference-resolution blocks of
create_or_update_component over the filtered payload. -/
def finalComponentPayload (r : Remote) (mtId : Nat) (item : Payload)
    (allowed : List String) (cmap : CMap) : Except String Payload :=
  match resolve_rear_port r mtId (componentRequestPayload mtId item allowed) cmap with
  | Except.error e => Except.error e
  | Except.ok p1 =>
    Except.ok (resolve_inv_manufacturer r (resolve_power_port r mtId p1 cmap))

/-- template_candidates models the find-existing query of
create_or_update_component: templates of this resource with this name,
restricted to the current parent module-type id. -/
def template_candidates (r : Remote) (resource : String) (mtId : Nat)
    (nameStr : String) : List Tmpl :=
  r.tmpls.filter (fun t => decide
    (t.resource = resource ∧ pyStr (lookupFieldD t.fields "name") = nameStr ∧
     t.module_type = mtId))

/-- find_existing_template embeds the existing-template search of
create_or_update_component (no search when the payload has no name). -/
def find_existing_template (r : Remote) (resource : String) (mtId : Nat)
    (p : Payload) : Option Tmpl :=
  match alookup "name" p with
  | some v =>
    if v = Val.none then Option.none
    else (template_candidates r resource mtId (pyStr v)).head?
  | Option.none => Option.none

/-- create_or_update_component embeds create_or_update_component of
netbox_module.py: build and resolve the payload, find an existing template
under the same parent, then diff-and-update, skip, or create. -/
def create_or_update_component (r : Remote) (resource : String) (mtId : Nat)
    (item : Payload) (allowed : List String) (cmap : CMap) :
    Remote × CompResult :=
  match finalComponentPayload r mtId item allowed cmap with
  | Except.error e => (r, CompResult.error e)
  | Except.ok p =>
    match find_existing_template r resource mtId p with
    | some tpl =>
      let upd := removeField p "module_type"
      if upd.any (fun kv => decide (lookupFieldD tpl.fields kv.1 ≠ kv.2)) then
        ({ r with
            tmpls := r.tmpls.map (fun t =>
              if t.id = tpl.id then { t with fields := updateFields t.fields upd } else t),
            updates := r.updates + 1 },
         CompResult.updated tpl.id)
      else (r, CompResult.skipped tpl.id)
    | Option.none =>
      ({ r with
          tmpls := r.tmpls ++ [{ resource := resource, id := r.nextId,
                                 module_type := mtId,
                                 fields := removeField p "module_type" : Tmpl }],
          nextId := r.nextId + 1, creates := r.creates + 1 },
       CompResult.created r.nextId)

/-- Doc models one parsed YAML definition document, split into the
top-level scalar fields and the component sections (the source uses one
dict; section keys and scalar keys never overlap, and normalize_payload
drops section keys anyway). -/
structure Doc where
  fields : Payload
  sections : List (String × List Payload)
deriving DecidableEq, Repr

/-- sectGet models doc.get(yaml_key) for a component section, with a
missing section read as the empty list. -/
def sectGet (d : Doc) (k : String) : List Payload :=
  (alookup k d.sections).getD []

/-- run_items embeds the inner loop of process_components: process each
item of one section in order, recording created or updated ids of named
items in the intra-run cache, and never stopping at an error. -/
def run_items : Remote → Nat → String → List String → CMap → List Payload →
    Remote × CMap × List CompResult
  | r, _, _, _, cmap, [] => (r, cmap, [])
  | r, mtId, resource, allowed, cmap, item :: rest =>
    let step := create_or_update_component r resource mtId item allowed cmap
    let nm := lookupFieldD item "name"
    let cmap2 :=
      match step.2 with
      | CompResult.created tid =>
        if truthy nm then cmapInsert cmap resource (pyStr nm) tid else cmap
      | CompResult.updated tid =>
        if truthy nm then cmapInsert cmap resource (pyStr nm) tid else cmap
      | _ => cmap
    let restRes := run_items step.1 mtId resource allowed cmap2 rest
    (restRes.1, restRes.2.1, step.2 :: restRes.2.2)

/-- run_sections embeds the outer loop of process_components: walk the
fixed key order, skipping absent or empty sections. -/
def run_sections : Remote → Nat → Doc → CMap → List String →
    Remote × CMap × List (String × CompResult)
  | r, _, _, cmap, [] => (r, cmap, [])
  | r, mtId, d, cmap, k :: rest =>
    match alookup k COMPONENT_MAP with
    | Option.none => run_sections r mtId d cmap rest
    | some (resName, allowed) =>
      let items := sectGet d k
      if items.isEmpty then run_sections r mtId d cmap rest
      else
        let stepRes := run_items r mtId resName allowed cmap items
        let restRes := run_sections stepRes.1 mtId d stepRes.2.1 rest
        (restRes.1, restRes.2.1,
         stepRes.2.2.map (fun x => (resName, x)) ++ restRes.2.2)

/-- process_components embeds process_components of netbox_module.py:
run every section in the fixed dependency order, starting from an empty
intra-run cache. -/
def process_components (r : Remote) (mtId : Nat) (d : Doc) :
    Remote × List (String × CompResult) :=
  let res := run_sections r mtId d [] ordered_keys
  (res.1, res.2.2)

/-- TrackItem models one entry of the progress ledger (one definition
document under tracking). -/
structure TrackItem where
  full_path : String
  manufacturer : Option String
  model : Option String
  slug : Option String
  status : String
  created_at : Option Nat
  error_message : Option String
  netbox_id : Option Nat
deriving DecidableEq, Repr

/-- Tracker models the persisted progress structure of
module_type_tracker.py (device_type_tracker.py is identical up to the
name of the item mapping).  saves counts save_progress calls. -/
structure Tracker where
  created_at : Nat
  last_updated : Nat
  total_files : Nat
  processed_count : Nat
  failed_count : Nat
  items : List (String × TrackItem)
  saves : Nat
deriving DecidableEq, Repr

/-- updItem applies a function to the item stored under one path, leaving
every other entry unchanged (Python mutates the dict value in place). -/
def updItem (items : List (String × TrackItem)) (path : String)
    (f : TrackItem → TrackItem) : List (String × TrackItem) :=
  items.map (fun kv => if kv.1 = path then (kv.1, f kv.2) else kv)

/-- ModuleTypeTracker.mark_as_created embeds mark_as_created of
module_type_tracker.py: guarded by membership; sets status and timestamp,
sets the remote id only when it is truthy, recomputes processed_count by
scanning, and persists.  The function is total: an unknown path is a
no-op and no error is raised. -/
def ModuleTypeTracker.mark_as_created (t : Tracker) (path : String)
    (nid : Option Nat) (now : Nat) : Tracker :=
  if (alookup path t.items).isSome then
    let items2 := updItem t.items path (fun it =>
      { it with status := "created", created_at := some now,
                netbox_id := match nid with
                  | some n => if n ≠ 0 then some n else it.netbox_id
                  | Option.none => it.netbox_id })
    { t with items := items2,
             processed_count :=
               (items2.filter (fun kv => decide (kv.2.status = "created"))).length,
             saves := t.saves + 1, last_updated := now }
  else t

/-- ModuleTypeTracker.mark_as_failed embeds mark_as_failed of
module_type_tracker.py: sets status and error message, recomputes
failed_count by scanning, and persists. -/
def ModuleTypeTracker.mark_as_failed (t : Tracker) (path : String)
    (msg : String) (now : Nat) : Tracker :=
  if (alookup path t.items).isSome then
    let items2 := updItem t.items path (fun it =>
      { it with status := "failed", error_message := some msg })
    { t with items := items2,
             failed_count :=
               (items2.filter (fun kv => decide (kv.2.status = "failed"))).length,
             saves := t.saves + 1, last_updated := now }
  else t

/-- ModuleTypeTracker.mark_as_skipped embeds mark_as_skipped of
module_type_tracker.py: sets status and reason and persists (no count is
recomputed by this operation in the source). -/
def ModuleTypeTracker.mark_as_skipped (t : Tracker) (path : String)
    (reason : String) (now : Nat) : Tracker :=
  if (alookup path t.items).isSome then
    let items2 := updItem t.items path (fun it =>
      { it with status := "skipped", error_message := some reason })
    { t with items := items2, saves := t.saves + 1, last_updated := now }
  else t

/-- DeviceTypeTracker.mark_as_created embeds mark_as_created of
device_type_tracker.py, whose body is identical to the module variant. -/
def DeviceTypeTracker.mark_as_created (t : Tracker) (path : String)
    (nid : Option Nat) (now : Nat) : Tracker :=
  if (alookup path t.items).isSome then
    let items2 := updItem t.items path (fun it =>
      { it with status := "created", created_at := some now,
                netbox_id := match nid with
                  | some n => if n ≠ 0 then some n else it.netbox_id
                  | Option.none => it.netbox_id })
    { t with items := items2,
             processed_count :=
               (items2.filter (fun kv => decide (kv.2.status = "created"))).length,
             saves := t.saves + 1, last_updated := now }
  else t

/-- DeviceTypeTracker.mark_as_failed embeds mark_as_failed of
device_type_tracker.py. -/
def DeviceTypeTracker.mark_as_failed (t : Tracker) (path : String)
    (msg : String) (now : Nat) : Tracker :=
  if (alookup path t.items).isSome then
    let items2 := updItem t.items path (fun it =>
      { it with status := "failed", error_message := some msg })
    { t with items := items2,
             failed_count :=
               (items2.filter (fun kv => decide (kv.2.status = "failed"))).length,
             saves := t.saves + 1, last_updated := now }
  else t

/-- DeviceTypeTracker.mark_as_skipped embeds mark_as_skipped of
device_type_tracker.py. -/
def DeviceTypeTracker.mark_as_skipped (t : Tracker) (path : String)
    (reason : String) (now : Nat) : Tracker :=
  if (alookup path t.items).isSome then
    let items2 := updItem t.items path (fun it =>
      { it with status := "skipped", error_message := some reason })
    { t with items := items2, saves := t.saves + 1, last_updated := now }
  else t

/-- FileInfo models one discovered definition file with the metadata
extracted from it by extract_module_info. -/
structure FileInfo where
  relative_path : String
  full_path : String
  manufacturer : Option String
  model : Option String
  slug : Option String
deriving DecidableEq, Repr

/-- pendingItem is the fresh ledger entry created for a newly discovered
path by scan_module_types. -/
def pendingItem (f : FileInfo) : TrackItem :=
  { full_path := f.full_path, manufacturer := f.manufacturer,
    model := f.model, slug := f.slug, status := "pending",
    created_at := Option.none, error_message := Option.none,
    netbox_id := Option.none }

/-- addNewFiles embeds the discovery loop of scan_module_types: each path
not yet present is appended as a pending entry; present paths are left
untouched. -/
def addNewFiles (items : List (String × TrackItem)) :
    List FileInfo → List (String × TrackItem)
  | [] => items
  | f :: rest =>
    let items2 :=
      if (alookup f.relative_path items).isSome then items
      else items ++ [(f.relative_path, pendingItem f)]
    addNewFiles items2 rest

/-- scan_module_types embeds scan_module_types of module_type_tracker.py
restricted to its ledger effect: with no files found it returns without
touching the ledger; otherwise it records the total, registers the new
paths as pending, and persists once. -/
def scan_module_types (t : Tracker) (files : List FileInfo) (now : Nat) :
    Tracker :=
  if files.isEmpty then t
  else
    { t with total_files := files.length,
             items := addNewFiles t.items files,
             saves := t.saves + 1, last_updated := now }

/-- get_pending_module_types embeds get_pending_module_types: the entries
whose status is still pending, in ledger order. -/
def get_pending_module_types (t : Tracker) : List (String × TrackItem) :=
  t.items.filter (fun kv => decide (kv.2.status = "pending"))

/-- ensure_valid_tag_on_create embeds the tag block of process_file
(netbox_module.py lines 449-460) on the tag-id list of a just-created
module type: append the marker tag id only when absent; the boolean
records whether an update write was issued. -/
def ensure_valid_tag_on_create (tag_ids : List Nat) (valid_tag_id : Nat) :
    List Nat × Bool :=
  if valid_tag_id ∈ tag_ids then (tag_ids, false)
  else (tag_ids ++ [valid_tag_id], true)

/-- add_valid_tag_to_existing embeds add_valid_tag_to_existing of
netbox_rack.py on the extracted tag-id list: with no marker tag it does
nothing; otherwise it appends the marker id only when absent and saves
only in that case (the boolean is the return value of the function, true
exactly when a write-back happened). -/
def add_valid_tag_to_existing (current_tag_ids : List Nat)
    (valid_tag : Option Nat) : List Nat × Bool :=
  match valid_tag with
  | Option.none => (current_tag_ids, false)
  | some tg =>
    if tg ∈ current_tag_ids then (current_tag_ids, false)
    else (current_tag_ids ++ [tg], true)

/-- DocOutcome models the outcome of processing one document in
process_file: the parent module type was created, updated, or the item
failed before any parent write. -/
inductive DocOutcome where
  | createdDoc : Nat → DocOutcome
  | updatedDoc : Nat → DocOutcome
  | faileddoc : String → DocOutcome
deriving DecidableEq, Repr

/-- man_name_of embeds the manufacturer-name choice of process_file: the
document's manufacturer field when truthy, otherwise the name of the
parent directory of the file. -/
def man_name_of (d : Doc) (parent_dir : String) : String :=
  let v := lookupFieldD d.fields "manufacturer"
  if truthy v then pyStr v else parent_dir

/-- add_valid_tag_step embeds the tag block of process_file on the remote
state: read the tags of the created module type, append the marker id when
absent, and issue one update write in that case. -/
def add_valid_tag_step (r : Remote) (mid : Nat) (vt : Option Nat) : Remote :=
  match vt with
  | Option.none => r
  | some tg =>
    match r.module_types.find? (fun mt => decide (mt.id = mid)) with
    | Option.none => r
    | some mt =>
      let step := ensure_valid_tag_on_create mt.tags tg
      if step.2 then
        { r with
            module_types := r.module_types.map (fun m =>
              if m.id = mid then { m with tags := step.1 } else m),
            updates := r.updates + 1 }
      else r

/-- process_doc embeds the per-document body of process_file of
netbox_module.py for a document that parsed to a dict, with the tracker
present and the relative path known: normalise the payload, gate on the
manufacturer, locate the existing module type, update it unconditionally
or create it (tagging a new one), then synchronise the component
templates and record the terminal tracker state.  Remote write failures
(the except branches of the source) are outside the model. -/
def process_doc (r : Remote) (t : Tracker) (path : String) (d : Doc)
    (parent_dir : String) (vt : Option Nat) (now : Nat) :
    Remote × Tracker × DocOutcome × List (String × CompResult) :=
  let payload := normalize_payload d.fields
  match ensure_manufacturer r (man_name_of d parent_dir) with
  | Option.none =>
    let msg := "Manufacturer " ++ man_name_of d parent_dir ++ " not present in NetBox"
    (r, ModuleTypeTracker.mark_as_failed t path msg now, DocOutcome.faileddoc msg, [])
  | some mid =>
    let payload2 := setField payload "manufacturer" (Val.int mid)
    match find_existing_module_type r payload2 with
    | some mt =>
      let r2 := { r with
        module_types := r.module_types.map (fun m =>
          if m.id = mt.id then { m with fields := updateFields m.fields payload2 } else m),
        updates := r.updates + 1 }
      let compRes := process_components r2 mt.id d
      (compRes.1, ModuleTypeTracker.mark_as_created t path (some mt.id) now,
       DocOutcome.updatedDoc mt.id, compRes.2)
    | Option.none =>
      let newId := r.nextId
      let r2 := { r with
        module_types := r.module_types ++ [{ id := newId, fields := payload2,
                                             tags := [] : ModuleType }],
        nextId := r.nextId + 1, creates := r.creates + 1 }
      let r3 := add_valid_tag_step r2 newId vt
      let compRes := process_components r3 newId d
      (compRes.1, ModuleTypeTracker.mark_as_created t path (some newId) now,
       DocOutcome.createdDoc newId, compRes.2)

/-- acmeRemote is a concrete remote state knowing one manufacturer and
holding no module types or templates yet. -/
def acmeRemote : Remote :=
  { manufacturers := [{ id := 1, name := "Acme", slug := "acme" }],
    module_types := [], tmpls := [], nextId := 10, creates := 0, updates := 0 }

/-- brokenRefDoc is a concrete document whose front-port references a
rear-port name that exists nowhere, together with a well-formed
interface. -/
def brokenRefDoc : Doc :=
  { fields := [("manufacturer", Val.str "Acme"), ("model", Val.str "M2"),
               ("slug", Val.str "m2")],
    sections := [("front-ports", [[("name", Val.str "fp1"), ("type", Val.str "8p8c"),
                                   ("rear_port", Val.str "nope")]]),
                 ("interfaces", [[("name", Val.str "eth0"),
                                  ("type", Val.str "1000base-t")]])] }

/-- brokenRefTracker is a concrete one-entry ledger for brokenRefDoc. -/
def brokenRefTracker : Tracker :=
  { created_at := 0, last_updated := 0, total_files := 1,
    processed_count := 0, failed_count := 0,
    items := [("Acme/m2.yaml",
      { full_path := "/x/Acme/m2.yaml", manufacturer := some "Acme",
        model := some "M2", slug := some "m2", status := "pending",
        created_at := Option.none, error_message := Option.none,
        netbox_id := Option.none })], saves := 0 }

/-- frontFirstDoc declares its front-port section before its rear-port
section; the front-port references the rear-port by name. -/
def frontFirstDoc : Doc :=
  { fields := [],
    sections := [("front-ports", [[("name", Val.str "fp1"), ("type", Val.str "8p8c"),
                                   ("rear_port", Val.str "rp1")]]),
                 ("rear-ports", [[("name", Val.str "rp1"), ("type", Val.str "8p8c"),
                                  ("positions", Val.int 1)]])] }

/-- rearFirstDoc is frontFirstDoc with the two sections listed in the
opposite source order. -/
def rearFirstDoc : Doc :=
  { fields := [],
    sections := [("rear-ports", [[("name", Val.str "rp1"), ("type", Val.str "8p8c"),
                                  ("positions", Val.int 1)]]),
                 ("front-ports", [[("name", Val.str "fp1"), ("type", Val.str "8p8c"),
                                   ("rear_port", Val.str "rp1")]])] }

/-- moduleDoc is a concrete complete definition document: parent fields
plus three component sections with a front-to-rear port reference. -/
def moduleDoc : Doc :=
  { fields := [("manufacturer", Val.str "Acme"), ("model", Val.str "M1"),
               ("slug", Val.str "m1"), ("u_height", Val.int 1)],
    sections := [("interfaces", [[("name", Val.str "eth0"),
                                  ("type", Val.str "1000base-t")]]),
                 ("front-ports", [[("name", Val.str "fp1"), ("type", Val.str "8p8c"),
                                   ("rear_port", Val.str "rp1")]]),
                 ("rear-ports", [[("name", Val.str "rp1"), ("type", Val.str "8p8c"),
                                  ("positions", Val.int 1)]])] }

/-- moduleTracker is a concrete one-entry ledger for moduleDoc. -/
def moduleTracker : Tracker :=
  { created_at := 0, last_updated := 0, total_files := 1,
    processed_count := 0, failed_count := 0,
    items := [("Acme/m1.yaml",
      { full_path := "/x/Acme/m1.yaml", manufacturer := some "Acme",
        model := some "M1", slug := some "m1", status := "pending",
        created_at := Option.none, error_message := Option.none,
        netbox_id := Option.none })], saves := 0 }

/-- firstPass reconciles moduleDoc against the empty remote state. -/
def firstPass : Remote × Tracker × DocOutcome × List (String × CompResult) :=
  process_doc acmeRemote moduleTracker "Acme/m1.yaml" moduleDoc "Acme" (some 99) 1

/-- secondPass reconciles the unchanged moduleDoc again, against the
remote state and ledger left by firstPass. -/
def secondPass : Remote × Tracker × DocOutcome × List (String × CompResult) :=
  process_doc firstPass.1 firstPass.2.1 "Acme/m1.yaml" moduleDoc "Acme" (some 99) 2

/-! Helper lemmas about association-list lookup. -/

theorem alookup_append_some {β : Type} {k : String} {l1 l2 : List (String × β)}
    {v : β} (h : alookup k l1 = some v) : alookup k (l1 ++ l2) = some v := by
  induction l1 with
  | nil => simp [alookup] at h
  | cons hd tl ih =>
    obtain ⟨k', v'⟩ := hd
    by_cases hk : k' = k
    · simpa [alookup, hk] using (by simpa [alookup, hk] using h : v' = v)
    · simp only [alookup, if_neg hk, List.cons_append] at h ⊢
      exact ih h

theorem alookup_append_none {β : Type} {k : String} {l1 : List (String × β)}
    (l2 : List (String × β)) (h : alookup k l1 = Option.none) :
    alookup k (l1 ++ l2) = alookup k l2 := by
  induction l1 with
  | nil => simp
  | cons hd tl ih =>
    obtain ⟨k', v'⟩ := hd
    by_cases hk : k' = k
    · simp [alookup, hk] at h
    · simp only [alookup, if_neg hk, List.cons_append] at h ⊢
      exact ih h

theorem alookup_updItem (items : List (String × TrackItem)) (path : String)
    (f : TrackItem → TrackItem) :
    alookup path (updItem items path f) = (alookup path items).map f := by
  induction items with
  | nil => simp [alookup, updItem]
  | cons hd tl ih =>
    obtain ⟨k', v'⟩ := hd
    by_cases hk : k' = path
    · subst hk
      show alookup k' ((if k' = k' then (k', f v') else (k', v')) :: updItem tl k' f) = _
      rw [if_pos rfl]
      simp [alookup]
    · show alookup path ((if k' = path then (k', f v') else (k', v')) :: updItem tl path f) = _
      rw [if_neg hk]
      simpa [alookup, hk] using ih

/-! Helper lemmas about the discovery loop. -/

theorem addNewFiles_preserves (fs : List FileInfo)
    (items : List (String × TrackItem)) (k : String) (v : TrackItem)
    (h : alookup k items = some v) : alookup k (addNewFiles items fs) = some v := by
  induction fs generalizing items with
  | nil => exact h
  | cons f rest ih =>
    simp only [addNewFiles]
    by_cases hp : (alookup f.relative_path items).isSome
    · simpa [hp] using ih items h
    · simp only [hp, if_false, Bool.false_eq_true]
      exact ih _ (alookup_append_some h)

theorem addNewFiles_new (fs : List FileInfo)
    (items : List (String × TrackItem)) (k : String) (v : TrackItem)
    (h0 : alookup k items = Option.none)
    (h1 : alookup k (addNewFiles items fs) = some v) :
    v.status = "pending" ∧ ∃ f ∈ fs, f.relative_path = k ∧ v = pendingItem f := by
  induction fs generalizing items with
  | nil =>
    rw [addNewFiles, h0] at h1
    exact absurd h1 (by simp)
  | cons f rest ih =>
    simp only [addNewFiles] at h1
    by_cases hp : (alookup f.relative_path items).isSome
    · rw [if_pos hp] at h1
      obtain ⟨hs, f', hf', hk, hv⟩ := ih items h0 h1
      exact ⟨hs, f', List.mem_cons_of_mem _ hf', hk, hv⟩
    · rw [if_neg hp] at h1
      by_cases hfk : f.relative_path = k
      · have hnew : alookup k (items ++ [(f.relative_path, pendingItem f)]) =
            some (pendingItem f) := by
          rw [alookup_append_none _ h0]
          simp [alookup, hfk]
        have := addNewFiles_preserves rest _ k _ hnew
        rw [this] at h1
        obtain rfl : pendingItem f = v := by simpa using h1
        exact ⟨rfl, f, List.mem_cons_self f rest, hfk, rfl⟩
      · have h0' : alookup k (items ++ [(f.relative_path, pendingItem f)]) =
            Option.none := by
          rw [alookup_append_none _ h0]
          simp [alookup, hfk]
        obtain ⟨hs, f', hf', hk2, hv⟩ := ih _ h0' h1
        exact ⟨hs, f', List.mem_cons_of_mem _ hf', hk2, hv⟩

/-- Claim C3: re-running discovery never resets progress.  Every ledger
entry already present keeps all of its fields unchanged under
scan_module_types; every entry it adds is a pending entry for one of the
discovered paths; and the pending-items query afterwards returns exactly
the entries whose status is still pending. -/
theorem claim_c3 (t : Tracker) (files : List FileInfo) (now : Nat) :
    (∀ path it, alookup path t.items = some it →
      alookup path (scan_module_types t files now).items = some it) ∧
    (∀ path it, alookup path t.items = Option.none →
      alookup path (scan_module_types t files now).items = some it →
      it.status = "pending" ∧ ∃ f ∈ files, f.relative_path = path ∧ it = pendingItem f) ∧
    get_pending_module_types (scan_module_types t files now) =
      (scan_module_types t files now).items.filter
        (fun kv => decide (kv.2.status = "pending")) := by
  refine ⟨?_, ?_, rfl⟩
  · intro path it h
    by_cases hf : files.isEmpty
    · simpa [scan_module_types, hf] using h
    · simpa [scan_module_types, hf] using addNewFiles_preserves files t.items path it h
  · intro path it h0 h1
    by_cases hf : files.isEmpty
    · rw [scan_module_types, if_pos hf, h0] at h1
      exact absurd h1 (by simp)
    · rw [scan_module_types, if_neg hf] at h1
      exact addNewFiles_new files t.items path it h0 h1

/-- Witness for claim C3 at a concrete ledger and file list: a created
entry survives re-discovery untouched and a fresh path comes in pending. -/
theorem claim_c3_witness :
    (alookup "a.yaml"
      (scan_module_types
        { created_at := 0, last_updated := 3, total_files := 1,
          processed_count := 1, failed_count := 0,
          items := [("a.yaml",
            { full_path := "/x/a.yaml", manufacturer := some "Acme",
              model := some "A", slug := some "a", status := "created",
              created_at := some 2, error_message := Option.none,
              netbox_id := some 41 })], saves := 2 }
        [{ relative_path := "a.yaml", full_path := "/x/a.yaml",
           manufacturer := some "Acme", model := some "A", slug := some "a" },
         { relative_path := "b.yaml", full_path := "/x/b.yaml",
           manufacturer := some "Acme", model := some "B", slug := some "b" }]
        7).items =
      some { full_path := "/x/a.yaml", manufacturer := some "Acme",
             model := some "A", slug := some "a", status := "created",
             created_at := some 2, error_message := Option.none,
             netbox_id := some 41 }) := by
  exact (claim_c3 _ _ 7).1 "a.yaml" _ (by decide)

/-- Claim C6 (amended): after a mark-created operation on a registered
path, processed_count equals the number of items whose status is created;
after a mark-failed operation on a registered path, failed_count equals
the number of items whose status is failed.  Each count is recomputed by
scanning the current items, never incremented; however each operation
recomputes only its own count, so the other count can go stale when an
item leaves its previous terminal status (see the counterexample). -/
theorem claim_c6_amended (t : Tracker) (path : String) (nid : Option Nat)
    (msg : String) (now now2 : Nat) :
    ((alookup path t.items).isSome = true →
      (ModuleTypeTracker.mark_as_created t path nid now).processed_count =
        ((ModuleTypeTracker.mark_as_created t path nid now).items.filter
          (fun kv => decide (kv.2.status = "created"))).length) ∧
    ((alookup path t.items).isSome = true →
      (ModuleTypeTracker.mark_as_failed t path msg now2).failed_count =
        ((ModuleTypeTracker.mark_as_failed t path msg now2).items.filter
          (fun kv => decide (kv.2.status = "failed"))).length) := by
  constructor
  · intro h
    simp [ModuleTypeTracker.mark_as_created, h]
  · intro h
    simp [ModuleTypeTracker.mark_as_failed, h]

/-- Witness for claim C6 (amended) on a one-entry ledger. -/
theorem claim_c6_witness :
    (ModuleTypeTracker.mark_as_created
      { created_at := 0, last_updated := 0, total_files := 1,
        processed_count := 0, failed_count := 0,
        items := [("a.yaml",
          { full_path := "/x/a.yaml", manufacturer := Option.none,
            model := Option.none, slug := Option.none, status := "pending",
            created_at := Option.none, error_message := Option.none,
            netbox_id := Option.none })], saves := 0 }
      "a.yaml" (some 7) 1).processed_count =
    ((ModuleTypeTracker.mark_as_created
      { created_at := 0, last_updated := 0, total_files := 1,
        processed_count := 0, failed_count := 0,
        items := [("a.yaml",
          { full_path := "/x/a.yaml", manufacturer := Option.none,
            model := Option.none, slug := Option.none, status := "pending",
            created_at := Option.none, error_message := Option.none,
            netbox_id := Option.none })], saves := 0 }
      "a.yaml" (some 7) 1).items.filter
        (fun kv => decide (kv.2.status = "created"))).length := by
  exact (claim_c6_amended _ "a.yaml" (some 7) "m" 1 1).1 (by decide)

/-- Counterexample for claim C6 as stated: marking a previously failed
item as created recomputes only processed_count, so immediately after
that mark-created operation failed_count (still 1) differs from the
number of items whose status is failed (0). -/
theorem claim_c6_counterexample :
    ¬ ((ModuleTypeTracker.mark_as_created
          (ModuleTypeTracker.mark_as_failed
            { created_at := 0, last_updated := 0, total_files := 1,
              processed_count := 0, failed_count := 0,
              items := [("a.yaml",
                { full_path := "/x/a.yaml", manufacturer := Option.none,
                  model := Option.none, slug := Option.none,
                  status := "pending", created_at := Option.none,
                  error_message := Option.none, netbox_id := Option.none })],
              saves := 0 }
            "a.yaml" "boom" 1)
          "a.yaml" (some 7) 2).failed_count =
        ((ModuleTypeTracker.mark_as_created
          (ModuleTypeTracker.mark_as_failed
            { created_at := 0, last_updated := 0, total_files := 1,
              processed_count := 0, failed_count := 0,
              items := [("a.yaml",
                { full_path := "/x/a.yaml", manufacturer := Option.none,
                  model := Option.none, slug := Option.none,
                  status := "pending", created_at := Option.none,
                  error_message := Option.none, netbox_id := Option.none })],
              saves := 0 }
            "a.yaml" "boom" 1)
          "a.yaml" (some 7) 2).items.filter
            (fun kv => decide (kv.2.status = "failed"))).length) := by
  decide

/-- Claim C10: each terminal-state operation on a path that is not
registered in the ledger is a complete no-op, for the module-type tracker
and for the device-type tracker alike: the ledger state is returned
unchanged (in particular the saves counter does not move, so nothing is
persisted), and, the functions being total, no error is raised. -/
theorem claim_c10 (t : Tracker) (path : String) (nid : Option Nat)
    (msg reason : String) (now : Nat)
    (h : alookup path t.items = Option.none) :
    ModuleTypeTracker.mark_as_created t path nid now = t ∧
    ModuleTypeTracker.mark_as_failed t path msg now = t ∧
    ModuleTypeTracker.mark_as_skipped t path reason now = t ∧
    DeviceTypeTracker.mark_as_created t path nid now = t ∧
    DeviceTypeTracker.mark_as_failed t path msg now = t ∧
    DeviceTypeTracker.mark_as_skipped t path reason now = t := by
  refine ⟨?_, ?_, ?_, ?_, ?_, ?_⟩ <;>
    simp [ModuleTypeTracker.mark_as_created, ModuleTypeTracker.mark_as_failed,
          ModuleTypeTracker.mark_as_skipped, DeviceTypeTracker.mark_as_created,
          DeviceTypeTracker.mark_as_failed, DeviceTypeTracker.mark_as_skipped, h]

/-- Witness for claim C10 on a one-entry ledger and an unknown path. -/
theorem claim_c10_witness :
    ModuleTypeTracker.mark_as_created
      { created_at := 0, last_updated := 0, total_files := 1,
        processed_count := 0, failed_count := 0,
        items := [("a.yaml",
          { full_path := "/x/a.yaml", manufacturer := Option.none,
            model := Option.none, slug := Option.none, status := "pending",
            created_at := Option.none, error_message := Option.none,
            netbox_id := Option.none })], saves := 0 }
      "missing.yaml" (some 7) 5 =
    { created_at := 0, last_updated := 0, total_files := 1,
      processed_count := 0, failed_count := 0,
      items := [("a.yaml",
        { full_path := "/x/a.yaml", manufacturer := Option.none,
          model := Option.none, slug := Option.none, status := "pending",
          created_at := Option.none, error_message := Option.none,
          netbox_id := Option.none })], saves := 0 } := by
  exact (claim_c10 _ "missing.yaml" (some 7) "m" "r" 5 (by decide)).1

/-- Claim C7: ensuring the marker tag appends its id only when absent,
leaves every other tag unchanged, writes back only when a change is
needed, is idempotent, and (when the tag set held the marker at most once,
as a set does) leaves the marker appearing exactly once; moreover the tag
block run on creation and the tag block run on existing entities implement
the same operation. -/
theorem claim_c7 (tags : List Nat) (tg : Nat) :
    ((add_valid_tag_to_existing tags (some tg)).2 = true ↔ tg ∉ tags) ∧
    (add_valid_tag_to_existing tags (some tg)).1.filter (fun x => decide (x ≠ tg)) =
      tags.filter (fun x => decide (x ≠ tg)) ∧
    (tags.count tg ≤ 1 → (add_valid_tag_to_existing tags (some tg)).1.count tg = 1) ∧
    add_valid_tag_to_existing (add_valid_tag_to_existing tags (some tg)).1 (some tg) =
      ((add_valid_tag_to_existing tags (some tg)).1, false) ∧
    ensure_valid_tag_on_create tags tg = add_valid_tag_to_existing tags (some tg) := by
  by_cases h : tg ∈ tags
  · refine ⟨by simp [add_valid_tag_to_existing, h], ?_, ?_, ?_, ?_⟩
    · simp [add_valid_tag_to_existing, h]
    · intro hle
      have hpos : 0 < tags.count tg := List.count_pos_iff.2 h
      simp only [add_valid_tag_to_existing, if_pos h]
      omega
    · simp [add_valid_tag_to_existing, h]
    · simp [ensure_valid_tag_on_create, add_valid_tag_to_existing, h]
  · refine ⟨by simp [add_valid_tag_to_existing, h], ?_, ?_, ?_, ?_⟩
    · simp [add_valid_tag_to_existing, h, List.filter_append]
    · intro _
      have h0 : tags.count tg = 0 := List.count_eq_zero.2 h
      simp [add_valid_tag_to_existing, h, List.count_append, h0]
    · simp [add_valid_tag_to_existing, h]
    · simp [ensure_valid_tag_on_create, add_valid_tag_to_existing, h]

/-- Witness for claim C7 on an entity with one unrelated tag. -/
theorem claim_c7_witness :
    (add_valid_tag_to_existing [3] (some 7)).1.count 7 = 1 := by
  exact (claim_c7 [3] 7).2.2.1 (by decide)

/-- Claim C9: the slug derivation is one deterministic function: the two
specification examples compute as stated, and the three textual copies of
slugify (module, manufacturer, and rack scripts) are the same function. -/
theorem claim_c9 :
    slugify "Cisco & Co." = "cisco-and-co" ∧
    slugify "A--B  c" = "a-b-c" ∧
    slugify_manufacturer = slugify ∧
    slugify_rack = slugify := by
  refine ⟨by decide, by decide, funext fun s => rfl, funext fun s => rfl⟩

/-! Helper lemmas for the payload normalisers. -/

theorem normalize_payload_keys (raw : Payload) :
    (normalize_payload raw).map Prod.fst =
      (raw.map Prod.fst).filter (fun k => decide (k ∈ ALLOWED_FIELDS)) := by
  induction raw with
  | nil => rfl
  | cons hd tl ih =>
    obtain ⟨k, v⟩ := hd
    by_cases hk : k ∈ ALLOWED_FIELDS
    · by_cases hb : k = "exclude_from_utilization" ∨ k = "is_full_depth" <;>
        simp [normalize_payload, hk, hb, ih]
    · simp [normalize_payload, hk, ih]

theorem normalize_payload_flag (raw : Payload) (k : String) (v : Val)
    (hmem : (k, v) ∈ raw)
    (hb : k = "exclude_from_utilization" ∨ k = "is_full_depth") :
    (k, Val.bool (boolNormStr v)) ∈ normalize_payload raw := by
  have hk : k ∈ ALLOWED_FIELDS := by
    rcases hb with h | h <;> subst h <;> decide
  induction raw with
  | nil => simp at hmem
  | cons hd tl ih =>
    obtain ⟨k', v'⟩ := hd
    rcases List.mem_cons.1 hmem with heq | htl
    · obtain ⟨rfl, rfl⟩ := Prod.mk.inj heq.symm
      simp [normalize_payload, hk, hb]
    · by_cases hk' : k' ∈ ALLOWED_FIELDS
      · by_cases hb' : k' = "exclude_from_utilization" ∨ k' = "is_full_depth" <;>
          simp [normalize_payload, hk', hb', ih htl]
      · simp [normalize_payload, hk', ih htl]

theorem normalize_payload_other (raw : Payload) (k : String) (v : Val)
    (hmem : (k, v) ∈ raw) (hk : k ∈ ALLOWED_FIELDS)
    (hb : ¬ (k = "exclude_from_utilization" ∨ k = "is_full_depth")) :
    (k, v) ∈ normalize_payload raw := by
  induction raw with
  | nil => simp at hmem
  | cons hd tl ih =>
    obtain ⟨k', v'⟩ := hd
    rcases List.mem_cons.1 hmem with heq | htl
    · obtain ⟨rfl, rfl⟩ := Prod.mk.inj heq.symm
      simp [normalize_payload, hk, hb]
    · by_cases hk' : k' ∈ ALLOWED_FIELDS
      · by_cases hb' : k' = "exclude_from_utilization" ∨ k' = "is_full_depth" <;>
          simp [normalize_payload, hk', hb', ih htl]
      · simp [normalize_payload, hk', ih htl]

theorem component_entry_fst (k : String) (v : Val) :
    (component_entry k v).1 = k := by
  unfold component_entry
  split
  · rfl
  · cases v with
    | str s => by_cases hs : pyLower s ∈ ["true", "false", "yes", "no"] <;> simp [hs]
    | int n => rfl
    | bool b => rfl
    | none => rfl

theorem component_payload_keys (item : Payload) (allowed : List String) :
    (component_payload item allowed).map Prod.fst =
      (item.map Prod.fst).filter (fun k => decide (k ∈ allowed)) := by
  induction item with
  | nil => rfl
  | cons hd tl ih =>
    obtain ⟨k, v⟩ := hd
    by_cases hk : k ∈ allowed
    · simp [component_payload, hk, ih, component_entry_fst]
    · simp [component_payload, hk, ih]

theorem component_payload_mem (item : Payload) (allowed : List String)
    (k : String) (v : Val) (hmem : (k, v) ∈ item) (hk : k ∈ allowed) :
    component_entry k v ∈ component_payload item allowed := by
  induction item with
  | nil => simp at hmem
  | cons hd tl ih =>
    obtain ⟨k', v'⟩ := hd
    rcases List.mem_cons.1 hmem with heq | htl
    · obtain ⟨rfl, rfl⟩ := Prod.mk.inj heq.symm
      simp [component_payload, hk]
    · by_cases hk' : k' ∈ allowed <;> simp [component_payload, hk', ih htl]

theorem component_entry_bool (k : String) (s : String) (hk : k ≠ "position")
    (hs : pyLower s ∈ ["true", "false", "yes", "no"]) :
    component_entry k (Val.str s) =
      (k, Val.bool (decide (pyLower s ∈ ["true", "yes", "1"]))) := by
  simp [component_entry, hk, hs]

theorem component_entry_position (v : Val) (hv : v ≠ Val.none) :
    component_entry "position" v = ("position", Val.str (pyStr v)) := by
  simp [component_entry, hv]

theorem component_entry_other (k : String) (v : Val)
    (hp : ¬ (k = "position" ∧ v ≠ Val.none))
    (hs : ∀ s, v = Val.str s → pyLower s ∉ ["true", "false", "yes", "no"]) :
    component_entry k v = (k, v) := by
  cases v with
  | str s =>
    by_cases hkp : k = "position" ∧ Val.str s ≠ Val.none
    · simp [component_entry, hkp, pyStr]
    · simp only [component_entry, if_neg hkp, hs s rfl, if_false]
  | int n =>
    have hk : ¬ k = "position" := fun h => hp ⟨h, by simp⟩
    simp [component_entry, hk]
  | bool b =>
    have hk : ¬ k = "position" := fun h => hp ⟨h, by simp⟩
    simp [component_entry, hk]
  | none => simp [component_entry]

/-- Claim C8 (amended): both normalisers keep exactly the allow-listed
input keys.  The parent normaliser converts only the two flag fields
(exclude_from_utilization, is_full_depth) to booleans — via membership of
the lowercased string in the true words, or Python truthiness for
non-strings — and keeps every other value unchanged, so a string-encoded
boolean under any other key is not normalised.  The sub-template
normaliser stringifies position, converts a string field to a boolean
only when its lowercase form is among true, false, yes, no — the strings
1 and 0 are deliberately excluded and kept as strings — and keeps every
other value unchanged. -/
theorem claim_c8_amended :
    (∀ raw : Payload, (normalize_payload raw).map Prod.fst =
        (raw.map Prod.fst).filter (fun k => decide (k ∈ ALLOWED_FIELDS))) ∧
    (∀ (raw : Payload) k v, (k, v) ∈ raw →
        (k = "exclude_from_utilization" ∨ k = "is_full_depth") →
        (k, Val.bool (boolNormStr v)) ∈ normalize_payload raw) ∧
    (∀ (raw : Payload) k v, (k, v) ∈ raw → k ∈ ALLOWED_FIELDS →
        ¬ (k = "exclude_from_utilization" ∨ k = "is_full_depth") →
        (k, v) ∈ normalize_payload raw) ∧
    (∀ (item : Payload) allowed, (component_payload item allowed).map Prod.fst =
        (item.map Prod.fst).filter (fun k => decide (k ∈ allowed))) ∧
    (∀ (item : Payload) allowed k s, (k, Val.str s) ∈ item → k ∈ allowed →
        k ≠ "position" → pyLower s ∈ ["true", "false", "yes", "no"] →
        (k, Val.bool (decide (pyLower s ∈ ["true", "yes", "1"]))) ∈
          component_payload item allowed) ∧
    (∀ (item : Payload) allowed v, ("position", v) ∈ item →
        "position" ∈ allowed → v ≠ Val.none →
        ("position", Val.str (pyStr v)) ∈ component_payload item allowed) ∧
    (∀ (item : Payload) allowed k v, (k, v) ∈ item → k ∈ allowed →
        ¬ (k = "position" ∧ v ≠ Val.none) →
        (∀ s, v = Val.str s → pyLower s ∉ ["true", "false", "yes", "no"]) →
        (k, v) ∈ component_payload item allowed) := by
  refine ⟨normalize_payload_keys, normalize_payload_flag, normalize_payload_other,
          component_payload_keys, ?_, ?_, ?_⟩
  · intro item allowed k s hmem hk hkp hs
    have := component_payload_mem item allowed k (Val.str s) hmem hk
    rwa [component_entry_bool k s hkp hs] at this
  · intro item allowed v hmem hk hv
    have := component_payload_mem item allowed "position" v hmem hk
    rwa [component_entry_position v hv] at this
  · intro item allowed k v hmem hk hp hs
    have := component_payload_mem item allowed k v hmem hk
    rwa [component_entry_other k v hp hs] at this

/-- Witness for claim C8 (amended) on concrete payloads: the parent
normaliser keeps the allow-listed keys and normalises a flag field, and
the sub-template normaliser converts a yes string under mgmt_only. -/
theorem claim_c8_witness :
    ("is_full_depth", Val.bool true) ∈
      normalize_payload [("model", Val.str "M1"), ("is_full_depth", Val.str "Yes")] ∧
    ("mgmt_only", Val.bool true) ∈
      component_payload [("name", Val.str "eth0"), ("mgmt_only", Val.str "yes")]
        ["name", "label", "type", "mgmt_only", "poe_mode", "poe_type"] := by
  constructor
  · have h := claim_c8_amended.2.1
      [("model", Val.str "M1"), ("is_full_depth", Val.str "Yes")]
      "is_full_depth" (Val.str "Yes") (by decide) (Or.inr rfl)
    simpa using h
  · have h := claim_c8_amended.2.2.2.2.1
      [("name", Val.str "eth0"), ("mgmt_only", Val.str "yes")]
      ["name", "label", "type", "mgmt_only", "poe_mode", "poe_type"]
      "mgmt_only" "yes" (by decide) (by decide) (by decide) (by decide)
    simpa using h

/-- Counterexample for claim C8 as stated: the sub-template normaliser
keeps the string-encoded boolean 1 as the string 1 rather than
normalising it to true (the source deliberately excludes 1 and 0). -/
theorem claim_c8_counterexample :
    component_payload [("mgmt_only", Val.str "1")]
        ["name", "label", "type", "mgmt_only", "poe_mode", "poe_type"] =
      [("mgmt_only", Val.str "1")] ∧
    Val.str "1" ≠ Val.bool true := by
  decide

/-! Frame and monotonicity lemmas for the component synchroniser. -/

theorem coc_manufacturers (r : Remote) (resource : String) (mtId : Nat)
    (item : Payload) (allowed : List String) (cmap : CMap) :
    (create_or_update_component r resource mtId item allowed cmap).1.manufacturers =
      r.manufacturers := by
  unfold create_or_update_component
  split
  · rfl
  · split
    · dsimp only
      split <;> rfl
    · rfl

theorem coc_updates_mono (r : Remote) (resource : String) (mtId : Nat)
    (item : Payload) (allowed : List String) (cmap : CMap) :
    r.updates ≤ (create_or_update_component r resource mtId item allowed cmap).1.updates := by
  unfold create_or_update_component
  split
  · exact Nat.le_refl _
  · split
    · dsimp only
      split
      · exact Nat.le_succ _
      · exact Nat.le_refl _
    · exact Nat.le_refl _

theorem run_items_manufacturers (items : List Payload) :
    ∀ (r : Remote) (mtId : Nat) (resource : String) (allowed : List String)
      (cmap : CMap),
      (run_items r mtId resource allowed cmap items).1.manufacturers =
        r.manufacturers := by
  induction items with
  | nil => intro r mtId resource allowed cmap; rfl
  | cons item rest ih =>
    intro r mtId resource allowed cmap
    simp only [run_items]
    rw [ih, coc_manufacturers]

theorem run_items_updates_mono (items : List Payload) :
    ∀ (r : Remote) (mtId : Nat) (resource : String) (allowed : List String)
      (cmap : CMap),
      r.updates ≤ (run_items r mtId resource allowed cmap items).1.updates := by
  induction items with
  | nil => intro r mtId resource allowed cmap; exact Nat.le_refl _
  | cons item rest ih =>
    intro r mtId resource allowed cmap
    simp only [run_items]
    exact Nat.le_trans (coc_updates_mono r resource mtId item allowed cmap) (ih _ _ _ _ _)

theorem run_items_length (items : List Payload) :
    ∀ (r : Remote) (mtId : Nat) (resource : String) (allowed : List String)
      (cmap : CMap),
      (run_items r mtId resource allowed cmap items).2.2.length = items.length := by
  induction items with
  | nil => intro r mtId resource allowed cmap; rfl
  | cons item rest ih =>
    intro r mtId resource allowed cmap
    simp only [run_items, List.length_cons]
    rw [ih]

theorem run_sections_manufacturers (keys : List String) :
    ∀ (r : Remote) (mtId : Nat) (d : Doc) (cmap : CMap),
      (run_sections r mtId d cmap keys).1.manufacturers = r.manufacturers := by
  induction keys with
  | nil => intro r mtId d cmap; rfl
  | cons k rest ih =>
    intro r mtId d cmap
    simp only [run_sections]
    split
    · exact ih _ _ _ _
    · split
      · exact ih _ _ _ _
      · rw [ih, run_items_manufacturers]

theorem run_sections_updates_mono (keys : List String) :
    ∀ (r : Remote) (mtId : Nat) (d : Doc) (cmap : CMap),
      r.updates ≤ (run_sections r mtId d cmap keys).1.updates := by
  induction keys with
  | nil => intro r mtId d cmap; exact Nat.le_refl _
  | cons k rest ih =>
    intro r mtId d cmap
    simp only [run_sections]
    split
    · exact ih _ _ _ _
    · split
      · exact ih _ _ _ _
      · exact Nat.le_trans (run_items_updates_mono _ _ _ _ _ _) (ih _ _ _ _)

theorem add_valid_tag_step_manufacturers (r : Remote) (mid : Nat)
    (vt : Option Nat) :
    (add_valid_tag_step r mid vt).manufacturers = r.manufacturers := by
  unfold add_valid_tag_step
  split
  · rfl
  · split
    · rfl
    · dsimp only
      split <;> rfl

theorem process_doc_manufacturers (r : Remote) (t : Tracker) (path : String)
    (d : Doc) (parent_dir : String) (vt : Option Nat) (now : Nat) :
    (process_doc r t path d parent_dir vt now).1.manufacturers =
      r.manufacturers := by
  unfold process_doc process_components
  split
  · rfl
  · dsimp only
    split
    · rw [run_sections_manufacturers]
    · rw [run_sections_manufacturers, add_valid_tag_step_manufacturers]

theorem mark_failed_lookup (t : Tracker) (path msg : String) (now : Nat)
    (h : (alookup path t.items).isSome = true) :
    alookup path (ModuleTypeTracker.mark_as_failed t path msg now).items =
      (alookup path t.items).map
        (fun it => { it with status := "failed", error_message := some msg }) := by
  simp only [ModuleTypeTracker.mark_as_failed, h, if_pos]
  exact alookup_updItem t.items path _

theorem manu_msg_ne_empty (x : String) :
    "Manufacturer " ++ x ++ " not present in NetBox" ≠ "" := by
  intro h
  have hlen := congrArg String.length h
  rw [String.length_append, String.length_append] at hlen
  have h1 : ("Manufacturer " : String).length = 13 := rfl
  have h2 : (" not present in NetBox" : String).length = 22 := rfl
  have h3 : ("" : String).length = 0 := rfl
  omega

/-- Claim C2: a definition whose manufacturer is not found remotely (by
exact name, then by derived slug) ends failed with a non-empty error
message, the remote state is left completely unchanged (no parent module
type and no sub-template is created), and processing a document never
changes the set of manufacturers — the resolver never creates one. -/
theorem claim_c2 (r : Remote) (t : Tracker) (path : String) (d : Doc)
    (parent_dir : String) (vt : Option Nat) (now : Nat)
    (hreg : (alookup path t.items).isSome = true)
    (habs : ensure_manufacturer r (man_name_of d parent_dir) = Option.none) :
    (process_doc r t path d parent_dir vt now).1 = r ∧
    (process_doc r t path d parent_dir vt now).2.2.1 =
      DocOutcome.faileddoc
        ("Manufacturer " ++ man_name_of d parent_dir ++ " not present in NetBox") ∧
    "Manufacturer " ++ man_name_of d parent_dir ++ " not present in NetBox" ≠ "" ∧
    (∃ it, alookup path (process_doc r t path d parent_dir vt now).2.1.items =
        some it ∧ it.status = "failed" ∧
        it.error_message =
          some ("Manufacturer " ++ man_name_of d parent_dir ++ " not present in NetBox")) ∧
    (∀ (r' : Remote) (t' : Tracker) (path' : String) (d' : Doc)
       (parent' : String) (vt' : Option Nat) (now' : Nat),
       (process_doc r' t' path' d' parent' vt' now').1.manufacturers =
         r'.manufacturers) := by
  obtain ⟨it0, hit0⟩ := Option.isSome_iff_exists.1 hreg
  refine ⟨?_, ?_, manu_msg_ne_empty _, ?_, ?_⟩
  · simp only [process_doc, habs]
  · simp only [process_doc, habs]
  · simp only [process_doc, habs]
    refine ⟨{ it0 with
                status := "failed"
                error_message := some ("Manufacturer " ++ man_name_of d parent_dir ++
                  " not present in NetBox") },
            ?_, rfl, rfl⟩
    rw [mark_failed_lookup t path _ now hreg, hit0]
    rfl
  · intro r' t' path' d' parent' vt' now'
    exact process_doc_manufacturers r' t' path' d' parent' vt' now'

/-- Witness for claim C2: a remote system that knows only the Acme
manufacturer fails a document referencing Globex, leaving the remote
state untouched. -/
theorem claim_c2_witness :
    (process_doc
      { manufacturers := [{ id := 1, name := "Acme", slug := "acme" }],
        module_types := [], tmpls := [], nextId := 10, creates := 0, updates := 0 }
      { created_at := 0, last_updated := 0, total_files := 1,
        processed_count := 0, failed_count := 0,
        items := [("Globex/g1.yaml",
          { full_path := "/x/Globex/g1.yaml", manufacturer := some "Globex",
            model := some "G1", slug := some "g1", status := "pending",
            created_at := Option.none, error_message := Option.none,
            netbox_id := Option.none })], saves := 0 }
      "Globex/g1.yaml"
      { fields := [("manufacturer", Val.str "Globex"), ("model", Val.str "G1"),
                   ("slug", Val.str "g1")], sections := [] }
      "Globex" Option.none 4).1 =
    { manufacturers := [{ id := 1, name := "Acme", slug := "acme" }],
      module_types := [], tmpls := [], nextId := 10, creates := 0, updates := 0 } := by
  exact (claim_c2 _ _ "Globex/g1.yaml" _ "Globex" Option.none 4
    (by decide) (by decide)).1

theorem resolve_rear_port_miss (r : Remote) (mtId : Nat) (p : Payload)
    (cmap : CMap) (v : Val) (h1 : alookup "rear_port" p = some v)
    (h2 : v ≠ Val.none)
    (h3 : cmapLookup cmap "rear_port_templates" (pyStr v) = Option.none)
    (h4 : rear_candidates r mtId (pyStr v) = []) :
    resolve_rear_port r mtId p cmap =
      Except.error ("rear_port " ++ pyStr v ++ " not found") := by
  simp [resolve_rear_port, h1, h2, h3, h4]

theorem resolve_power_port_miss (r : Remote) (mtId : Nat) (p : Payload)
    (cmap : CMap) (v : Val) (h1 : alookup "power_port" p = some v)
    (h2 : v ≠ Val.none)
    (h3 : cmapLookup cmap "power_port_templates" (pyStr v) = Option.none)
    (h4 : power_port_candidates r mtId (pyStr v) = []) :
    resolve_power_port r mtId p cmap = removeField p "power_port" := by
  simp [resolve_power_port, h1, h2, h3, h4]

/-- Claim C5: a required named reference (front-port rear_port) that
resolves neither in the intra-run cache nor by the scoped remote lookup
makes that single sub-template an error with the remote state untouched;
an optional reference (power-outlet power_port) in the same situation is
dropped from the payload and the sub-template still goes through without
error; processing always continues over all remaining sub-templates; and
on a concrete document with a dangling front-port reference the parent is
still reconciled and marked created while the interface next to it is
created. -/
theorem claim_c5 :
    (∀ (r : Remote) (resource : String) (mtId : Nat) (item : Payload)
       (allowed : List String) (cmap : CMap) (v : Val),
       alookup "rear_port" (componentRequestPayload mtId item allowed) = some v →
       v ≠ Val.none →
       cmapLookup cmap "rear_port_templates" (pyStr v) = Option.none →
       rear_candidates r mtId (pyStr v) = [] →
       create_or_update_component r resource mtId item allowed cmap =
         (r, CompResult.error ("rear_port " ++ pyStr v ++ " not found"))) ∧
    (∀ (r : Remote) (mtId : Nat) (p : Payload) (cmap : CMap) (v : Val),
       alookup "power_port" p = some v → v ≠ Val.none →
       cmapLookup cmap "power_port_templates" (pyStr v) = Option.none →
       power_port_candidates r mtId (pyStr v) = [] →
       resolve_power_port r mtId p cmap = removeField p "power_port") ∧
    (∀ (r : Remote) (resource : String) (mtId : Nat) (item : Payload)
       (allowed : List String) (cmap : CMap) (e : String),
       alookup "rear_port" (componentRequestPayload mtId item allowed) = Option.none →
       (create_or_update_component r resource mtId item allowed cmap).2 ≠
         CompResult.error e) ∧
    (∀ (items : List Payload) (r : Remote) (mtId : Nat) (resource : String)
       (allowed : List String) (cmap : CMap),
       (run_items r mtId resource allowed cmap items).2.2.length = items.length) ∧
    ((process_doc acmeRemote brokenRefTracker "Acme/m2.yaml" brokenRefDoc
        "Acme" Option.none 3).2.2.1 = DocOutcome.createdDoc 10 ∧
     (process_doc acmeRemote brokenRefTracker "Acme/m2.yaml" brokenRefDoc
        "Acme" Option.none 3).2.2.2 =
       [("interface_templates", CompResult.created 11),
        ("front_port_templates", CompResult.error "rear_port nope not found")] ∧
     (alookup "Acme/m2.yaml"
        (process_doc acmeRemote brokenRefTracker "Acme/m2.yaml" brokenRefDoc
          "Acme" Option.none 3).2.1.items).map (fun it => it.status) =
       some "created") := by
  refine ⟨?_, resolve_power_port_miss, ?_, run_items_length, by decide⟩
  · intro r resource mtId item allowed cmap v h1 h2 h3 h4
    have hres := resolve_rear_port_miss r mtId
      (componentRequestPayload mtId item allowed) cmap v h1 h2 h3 h4
    simp [create_or_update_component, finalComponentPayload, hres]
  · intro r resource mtId item allowed cmap e h
    have hok : resolve_rear_port r mtId
        (componentRequestPayload mtId item allowed) cmap =
        Except.ok (componentRequestPayload mtId item allowed) := by
      simp [resolve_rear_port, h]
    simp only [create_or_update_component, finalComponentPayload, hok]
    split
    · split <;> simp
    · simp

theorem run_sections_sect_congr (keys : List String) :
    ∀ (r : Remote) (mtId : Nat) (d1 d2 : Doc) (cmap : CMap),
      (∀ k, sectGet d1 k = sectGet d2 k) →
      run_sections r mtId d1 cmap keys = run_sections r mtId d2 cmap keys := by
  induction keys with
  | nil => intro r mtId d1 d2 cmap h; rfl
  | cons k rest ih =>
    intro r mtId d1 d2 cmap h
    simp only [run_sections]
    split
    · exact ih _ _ _ _ _ h
    · rw [h k]
      by_cases hempty : (sectGet d2 k).isEmpty = true
      · simp only [hempty, if_true]
        exact ih _ _ _ _ _ h
      · simp only [if_neg hempty]
        rw [ih _ _ _ _ _ h]

/-- Claim C4: sub-template kinds are processed in a fixed order in which
referenced kinds come before referencing kinds (rear-ports before
front-ports, power-ports before power-outlets); the processing result
depends only on the contents of the sections, never on the order they
appear in the source document; and a concrete document whose rear-port
section appears after the front-port section still reconciles both
successfully (both created, no error). -/
theorem claim_c4 :
    ordered_keys = ["rear-ports", "console-ports", "console-server-ports",
      "power-ports", "power-outlets", "interfaces", "front-ports",
      "module-bays", "device-bays", "inventory-items"] ∧
    ordered_keys.indexOf "rear-ports" < ordered_keys.indexOf "front-ports" ∧
    ordered_keys.indexOf "power-ports" < ordered_keys.indexOf "power-outlets" ∧
    (∀ (r : Remote) (mtId : Nat) (d1 d2 : Doc),
       (∀ k, sectGet d1 k = sectGet d2 k) →
       process_components r mtId d1 = process_components r mtId d2) ∧
    ((process_components acmeRemote 10 frontFirstDoc).2 =
       [("rear_port_templates", CompResult.created 10),
        ("front_port_templates", CompResult.created 11)] ∧
     process_components acmeRemote 10 frontFirstDoc =
       process_components acmeRemote 10 rearFirstDoc) := by
  refine ⟨by decide, by decide, by decide, ?_, by decide⟩
  intro r mtId d1 d2 h
  simp only [process_components]
  rw [run_sections_sect_congr ordered_keys r mtId d1 d2 [] h]

/-- Witness for claim C4: the order-independence conjunct applied to the
two concrete documents that differ only in section order. -/
theorem claim_c4_witness :
    process_components acmeRemote 10 frontFirstDoc =
      process_components acmeRemote 10 rearFirstDoc := by
  refine claim_c4.2.2.2.1 acmeRemote 10 frontFirstDoc rearFirstDoc ?_
  intro k
  by_cases h1 : "front-ports" = k
  · subst h1; decide
  · by_cases h2 : "rear-ports" = k
    · subst h2; decide
    · simp [sectGet, frontFirstDoc, rearFirstDoc, alookup, h1, h2]

/-- Witness for claim C5: a concrete front-port whose rear-port name
matches nothing errors out and leaves the remote state untouched. -/
theorem claim_c5_witness :
    create_or_update_component acmeRemote "front_port_templates" 10
      [("name", Val.str "fp1"), ("type", Val.str "8p8c"),
       ("rear_port", Val.str "nope")]
      ["name", "label", "type", "rear_port", "rear_port_position"] [] =
    (acmeRemote, CompResult.error "rear_port nope not found") := by
  exact claim_c5.1 acmeRemote "front_port_templates" 10
    [("name", Val.str "fp1"), ("type", Val.str "8p8c"),
     ("rear_port", Val.str "nope")]
    ["name", "label", "type", "rear_port", "rear_port_position"] []
    (Val.str "nope") (by decide) (by decide) (by decide) (by decide)

/-- Claim C1 (amended): a sub-template whose located remote entity already
carries all the allow-listed payload values is skipped with no remote
write; the parent module type, however, is updated unconditionally
whenever it is located, issuing an update write even when nothing
differs; consequently a second pass over an unchanged definition issues
zero creates and skips every sub-template, but still updates the parent
once. -/
theorem claim_c1_amended :
    (∀ (r : Remote) (resource : String) (mtId : Nat) (item : Payload)
       (allowed : List String) (cmap : CMap) (p : Payload) (tpl : Tmpl),
       finalComponentPayload r mtId item allowed cmap = Except.ok p →
       find_existing_template r resource mtId p = some tpl →
       (removeField p "module_type").any
         (fun kv => decide (lookupFieldD tpl.fields kv.1 ≠ kv.2)) = false →
       create_or_update_component r resource mtId item allowed cmap =
         (r, CompResult.skipped tpl.id)) ∧
    (∀ (r : Remote) (t : Tracker) (path : String) (d : Doc) (parent : String)
       (vt : Option Nat) (now mid : Nat) (mt : ModuleType),
       ensure_manufacturer r (man_name_of d parent) = some mid →
       find_existing_module_type r
         (setField (normalize_payload d.fields) "manufacturer" (Val.int mid)) =
         some mt →
       (process_doc r t path d parent vt now).2.2.1 = DocOutcome.updatedDoc mt.id ∧
       r.updates + 1 ≤ (process_doc r t path d parent vt now).1.updates) ∧
    (secondPass.2.2.1 = DocOutcome.updatedDoc 10 ∧
     secondPass.2.2.2 =
       [("rear_port_templates", CompResult.skipped 11),
        ("interface_templates", CompResult.skipped 12),
        ("front_port_templates", CompResult.skipped 13)] ∧
     secondPass.1.creates = firstPass.1.creates ∧
     secondPass.1.updates = firstPass.1.updates + 1) := by
  refine ⟨?_, ?_, by decide⟩
  · intro r resource mtId item allowed cmap p tpl h1 h2 h3
    simp only [create_or_update_component, h1, h2]
    rw [h3]
    simp
  · intro r t path d parent vt now mid mt h1 h2
    constructor
    · simp only [process_doc, h1, h2]
    · simp only [process_doc, h1, h2, process_components]
      refine Nat.le_trans ?_ (run_sections_updates_mono ordered_keys _ mt.id d [])
      exact Nat.le_refl _

/-- Witness for claim C1 (amended): after the first pass, re-reconciling
the unchanged rear-port sub-template is skipped with the remote state
returned untouched. -/
theorem claim_c1_witness :
    create_or_update_component firstPass.1 "rear_port_templates" 10
      [("name", Val.str "rp1"), ("type", Val.str "8p8c"), ("positions", Val.int 1)]
      ["name", "label", "type", "positions", "_is_power_source"] [] =
    (firstPass.1, CompResult.skipped 11) := by
  exact claim_c1_amended.1 firstPass.1 "rear_port_templates" 10
    [("name", Val.str "rp1"), ("type", Val.str "8p8c"), ("positions", Val.int 1)]
    ["name", "label", "type", "positions", "_is_power_source"] []
    [("name", Val.str "rp1"), ("type", Val.str "8p8c"), ("positions", Val.int 1),
     ("module_type", Val.int 10)]
    { resource := "rear_port_templates", id := 11, module_type := 10,
      fields := [("name", Val.str "rp1"), ("type", Val.str "8p8c"),
                 ("positions", Val.int 1)] }
    (by rfl) (by decide) (by decide)

/-- Counterexample for claim C1 as stated: on the second pass over the
unchanged moduleDoc every allow-listed parent field equals the remote
value, yet the parent reconciliation result is updated — not skipped —
and one more update write is issued. -/
theorem claim_c1_counterexample :
    secondPass.2.2.1 = DocOutcome.updatedDoc 10 ∧
    secondPass.1.updates = firstPass.1.updates + 1 ∧
    firstPass.1.module_types =
      [{ id := 10,
         fields := [("manufacturer", Val.int 1), ("model", Val.str "M1"),
                    ("slug", Val.str "m1"), ("u_height", Val.int 1)],
         tags := [99] }] ∧
    normalize_payload moduleDoc.fields =
      [("manufacturer", Val.str "Acme"), ("model", Val.str "M1"),
       ("slug", Val.str "m1"), ("u_height", Val.int 1)] := by
  decide
